import Mathlib

/-!
Verification of the SEO site-analysis-and-scoring pipeline.

The definitions below are a shallow embedding of the Python sources
`src/seo_analyzer/seo_analyzer.py` (analyzers and orchestrator) and
`src/reports/report_generator.py` (report generator).  HTML parsing and
network I/O are performed by external libraries (BeautifulSoup, requests);
the embedding takes the values those libraries hand to the repository's code
(extracted tag texts, tag counts, elapsed times, status codes) as inputs,
and every function of the repository itself is translated faithfully.
-/

set_option autoImplicit false

namespace SeoAudit

/-- Leading and trailing whitespace removed, as Python's `str.strip()`. -/
def stripChars (l : List Char) : List Char :=
  ((l.dropWhile Char.isWhitespace).reverse.dropWhile Char.isWhitespace).reverse

/-- Python's `str.strip()` on a string. -/
def pyStrip (s : String) : String := String.mk (stripChars s.data)

/-- Splitting a character list at every separator, keeping empty pieces, as
Python's `str.split(sep)`. -/
def splitCharsBy (p : Char → Bool) (l : List Char) : List (List Char) :=
  l.foldr
    (fun c acc =>
      if p c then [] :: acc
      else
        match acc with
        | [] => [[c]]
        | w :: ws => (c :: w) :: ws)
    [[]]

/-- The word list Python's `str.split()` produces: split on whitespace runs,
dropping empty pieces. -/
def pyWords (s : String) : List String :=
  ((splitCharsBy Char.isWhitespace s.data).filter (fun w => w ≠ [])).map String.mk

/-- Python's `str.split(',')`. -/
def pySplitComma (s : String) : List String :=
  (splitCharsBy (fun c => c = ',') s.data).map String.mk

/-- Round-half-to-even on rationals, as Python's `round` ties-to-even. -/
def roundHalfEven (q : ℚ) : ℤ :=
  let f := ⌊q⌋
  let r := q - (f : ℚ)
  if r < 1/2 then f
  else if 1/2 < r then f + 1
  else if f % 2 = 0 then f else f + 1

/-- Python's `round(x, 2)`. -/
def round2 (q : ℚ) : ℚ := (roundHalfEven (q * 100) : ℚ) / 100

/-! ## Tag Analyzer (`SEOAnalyzer._analyze_meta_tags`) -/

/-- The `result['title']` sub-dictionary. -/
structure TitleResult where
  content : String
  length : Nat
  optimal : Bool
  issues : List String
deriving Repr, DecidableEq

/-- The `result['description']` sub-dictionary. -/
structure DescriptionResult where
  content : String
  length : Nat
  optimal : Bool
  issues : List String
deriving Repr, DecidableEq

/-- The `result['keywords']` sub-dictionary. -/
structure KeywordsResult where
  content : String
  count : Nat
  issues : List String
deriving Repr, DecidableEq

/-- The dictionary `_analyze_meta_tags` returns on success. -/
structure MetaResult where
  title : TitleResult
  description : DescriptionResult
  keywords : KeywordsResult
  viewport : Bool
  robots : Bool
deriving Repr, DecidableEq

/-- What BeautifulSoup extracts from the page for `_analyze_meta_tags`:
the inner text of the `title` tag when one is found, the raw `content`
attribute of the description and keywords meta tags when present, and the
presence of the viewport and robots meta tags. -/
structure MetaPage where
  titleTag : Option String
  descContent : Option String
  keywordsContent : Option String
  hasViewport : Bool
  hasRobots : Bool
deriving Repr, DecidableEq

def titleTooShortMsg : String := "Title слишком короткий (< 30 символов)"
def titleTooLongMsg : String := "Title слишком длинный (> 60 символов)"
def descTooShortMsg : String := "Description слишком короткий (< 120 символов)"
def descTooLongMsg : String := "Description слишком длинный (> 160 символов)"
def keywordsTooManyMsg : String := "Слишком много ключевых слов (> 10)"

/-- The title block of `_analyze_meta_tags`: runs only when a `title` tag
was found, otherwise the defaults stand. -/
def analyzeTitle : Option String → TitleResult
  | none => { content := "", length := 0, optimal := false, issues := [] }
  | some raw =>
    let t := pyStrip raw
    if t.length < 30 then
      { content := t, length := t.length, optimal := false,
        issues := [titleTooShortMsg] }
    else if t.length > 60 then
      { content := t, length := t.length, optimal := false,
        issues := [titleTooLongMsg] }
    else
      { content := t, length := t.length, optimal := true, issues := [] }

/-- The description block of `_analyze_meta_tags`: runs only when the meta
tag is present with a truthy (non-empty) `content` attribute. -/
def analyzeDescription : Option String → DescriptionResult
  | none => { content := "", length := 0, optimal := false, issues := [] }
  | some raw =>
    if raw = "" then { content := "", length := 0, optimal := false, issues := [] }
    else
      let d := pyStrip raw
      if d.length < 120 then
        { content := d, length := d.length, optimal := false,
          issues := [descTooShortMsg] }
      else if d.length > 160 then
        { content := d, length := d.length, optimal := false,
          issues := [descTooLongMsg] }
      else
        { content := d, length := d.length, optimal := true, issues := [] }

/-- The keywords block of `_analyze_meta_tags`: strips the attribute,
splits on commas, counts the pieces with non-empty strip. -/
def analyzeKeywords : Option String → KeywordsResult
  | none => { content := "", count := 0, issues := [] }
  | some raw =>
    if raw = "" then { content := "", count := 0, issues := [] }
    else
      let k := pyStrip raw
      let cnt := (((pySplitComma k).map pyStrip).filter (fun w => w ≠ "")).length
      if cnt > 10 then
        { content := k, count := cnt, issues := [keywordsTooManyMsg] }
      else
        { content := k, count := cnt, issues := [] }

/-- Embedding of `SEOAnalyzer._analyze_meta_tags`: the three tag blocks in
order, then the viewport and robots presence booleans. -/
def analyzeMetaTags (page : MetaPage) : MetaResult :=
  { title := analyzeTitle page.titleTag,
    description := analyzeDescription page.descContent,
    keywords := analyzeKeywords page.keywordsContent,
    viewport := page.hasViewport, robots := page.hasRobots }

/-! ## Content Analyzer (`SEOAnalyzer._analyze_content`) -/

/-- What BeautifulSoup extracts from the page for `_analyze_content`: the
visible text after script/style removal, the `h1`/`h2`/`h3` counts, and for
each `img` element whether it carries a truthy `alt` attribute. -/
structure ContentPage where
  textContent : String
  h1Count : Nat
  h2Count : Nat
  h3Count : Nat
  imgAlts : List Bool
deriving Repr, DecidableEq

/-- The dictionary `_analyze_content` returns on success. -/
structure ContentResult where
  word_count : Nat
  char_count : Nat
  h1_count : Nat
  h2_count : Nat
  h3_count : Nat
  img_count : Nat
  img_without_alt : Nat
  issues : List String
deriving Repr, DecidableEq

def missingH1Msg : String := "Отсутствует H1 заголовок"
def multipleH1Msg : String := "Несколько H1 заголовков на странице"
def lowWordCountMsg : String := "Недостаточно контента на странице (< 300 слов)"

/-- Embedding of `SEOAnalyzer._analyze_content`: counts words and
characters of the extracted text, records the tag counts, counts images
without alt, and appends the heading-structure issue (zero or multiple H1) and the
word-count issue in that order. -/
def analyzeContent (p : ContentPage) : ContentResult :=
  let wc := (pyWords p.textContent).length
  let withoutAlt := (p.imgAlts.filter (fun b => !b)).length
  let headingIssues :=
    if p.h1Count = 0 then [missingH1Msg]
    else if p.h1Count > 1 then [multipleH1Msg]
    else []
  let wordIssues := if wc < 300 then [lowWordCountMsg] else []
  { word_count := wc, char_count := p.textContent.length,
    h1_count := p.h1Count, h2_count := p.h2Count, h3_count := p.h3Count,
    img_count := p.imgAlts.length, img_without_alt := withoutAlt,
    issues := headingIssues ++ wordIssues }

/-- Recognizer for the two heading-count issue messages. -/
def isHeadingIssue (s : String) : Bool :=
  s == missingH1Msg || s == multipleH1Msg

/-! ## Performance Analyzer (`SEOAnalyzer._analyze_performance`) -/

def slowLoadMsg : String := "Слишком долгое время загрузки (> 10 сек)"

def badStatusMsg (code : Nat) : String :=
  "Некорректный статус код: " ++ toString code

/-- The dictionary `_analyze_performance` returns on success. -/
structure PerfResult where
  load_time : ℚ
  response_size : Nat
  status_code : Nat
  performance_score : Nat
  issues : List String
deriving Repr, DecidableEq

/-- Embedding of `SEOAnalyzer._analyze_performance` after its own GET
request returned: `loadTime` is the elapsed wall-clock time in seconds,
`respSize` the body size, `statusCode` the HTTP status. -/
def analyzePerformance (loadTime : ℚ) (respSize : Nat) (statusCode : Nat) :
    PerfResult :=
  let score :=
    if loadTime < 2 then 100
    else if loadTime < 5 then 75
    else if loadTime < 10 then 50
    else 25
  let slowIssues := if loadTime < 2 then [] else if loadTime < 5 then []
    else if loadTime < 10 then [] else [slowLoadMsg]
  let statusIssues := if statusCode ≠ 200 then [badStatusMsg statusCode] else []
  { load_time := round2 loadTime, response_size := respSize,
    status_code := statusCode, performance_score := score,
    issues := slowIssues ++ statusIssues }

/-! ## Remaining category results -/

/-- The dictionary `_analyze_links` returns on success. -/
structure LinksResult where
  internal_links : Nat
  external_links : Nat
  broken_links : Nat
  links_without_alt : Nat
  total_links : Nat
deriving Repr, DecidableEq

/-- The dictionary `_analyze_mobile_friendly` returns on success. -/
structure MobileResult where
  viewport_meta : Bool
  mobile_friendly : Bool
  issues : List String
deriving Repr, DecidableEq

/-- The dictionary `_check_ssl_certificate` returns, covering both the
success shape and the exception shape (`valid=false` with one issue); the
hostname-less `{error}` shape is `CatResult.err`. -/
structure SslResult where
  valid : Bool
  issuer : List (String × String)
  subject : List (String × String)
  expires : Option String
  issues : List String
deriving Repr, DecidableEq

/-- The `results['availability']` entry recorded by the orchestrator. -/
structure Availability where
  status_code : Nat
  response_time : ℚ
  final_url : String
deriving Repr, DecidableEq

/-- A category entry of the results map: either the analyzer's result
dictionary, or the `{error: message}` dictionary it returns when an
exception was caught inside it. -/
inductive CatResult (α : Type) where
  | ok : α → CatResult α
  | err : String → CatResult α
deriving Repr, DecidableEq

/-- The `result['results']` map: each category key is present or absent. -/
structure Results where
  availability : Option Availability
  meta : Option (CatResult MetaResult)
  links : Option (CatResult LinksResult)
  content : Option (CatResult ContentResult)
  performance : Option (CatResult PerfResult)
  mobile : Option (CatResult MobileResult)
  ssl : Option (CatResult SslResult)
deriving Repr, DecidableEq

/-- The empty results map the orchestrator starts from. -/
def emptyResults : Results :=
  { availability := none, meta := none, links := none, content := none,
    performance := none, mobile := none, ssl := none }

/-- The structure `analyze_site` returns (an AnalysisResult). -/
structure AnalysisResult where
  url : String
  timestamp : String
  analysis_time : ℚ
  status : String
  errors : List String
  results : Results
deriving Repr, DecidableEq

/-! ## Orchestrator (`SEOAnalyzer.analyze_site`) -/

/-- The response `_check_site_availability` hands back on success. -/
structure SiteResponse where
  status_code : Nat
  elapsed : ℚ
  final_url : String
deriving Repr, DecidableEq

def siteUnavailableMsg : String := "Сайт недоступен"

/-- The effectful environment of one `analyze_site` run: what the initial
fetch returns (`none` on any request exception) and the category results
each analyzer would produce when run, plus the measured wall-clock data. -/
structure SiteEnv where
  fetch : Option SiteResponse
  metaRes : CatResult MetaResult
  linksRes : CatResult LinksResult
  contentRes : CatResult ContentResult
  perfRes : CatResult PerfResult
  mobileRes : CatResult MobileResult
  sslRes : CatResult SslResult
  timestamp : String
  elapsedTotal : ℚ
deriving Repr, DecidableEq

/-- Embedding of `SEOAnalyzer.analyze_site`: if the initial fetch fails the
run stops with status `error`, one error message and the results map still
empty; otherwise availability is recorded and all six analyzers run (each
already converting its own exceptions into a `CatResult.err`), ending with
status `completed`. -/
def analyzeSite (env : SiteEnv) (url : String) : AnalysisResult :=
  match env.fetch with
  | none =>
    { url := url, timestamp := env.timestamp,
      analysis_time := env.elapsedTotal, status := "error",
      errors := [siteUnavailableMsg], results := emptyResults }
  | some resp =>
    { url := url, timestamp := env.timestamp,
      analysis_time := env.elapsedTotal, status := "completed", errors := [],
      results :=
        { availability := some
            { status_code := resp.status_code, response_time := resp.elapsed,
              final_url := resp.final_url },
          meta := some env.metaRes, links := some env.linksRes,
          content := some env.contentRes, performance := some env.perfRes,
          mobile := some env.mobileRes, ssl := some env.sslRes } }

/-! ## Report Generator (`ReportGenerator`) -/

/-- The summary dictionary `_generate_summary` returns. -/
structure Summary where
  url : String
  status : String
  analysis_time : ℚ
  issues_count : Nat
  warnings_count : Nat
  passed_checks : Nat
  failed_checks : Nat
deriving Repr, DecidableEq

/-- The meta issues `_generate_summary` collects: it walks the meta
dictionary's entries and extends over every value that is a dictionary with
an `issues` key — for an ok result those are title, description and
keywords, in insertion order; the `{error}` dictionary contributes none. -/
def metaIssuesOf : CatResult MetaResult → List String
  | .ok m => m.title.issues ++ m.description.issues ++ m.keywords.issues
  | .err _ => []

/-- Embedding of `ReportGenerator._generate_summary`.  Only the meta,
performance and ssl categories are inspected; performance and ssl count
only when the stored dictionary has an `issues` key, which the `{error}`
shape lacks, while the meta block runs for the `{error}` shape too (it is a
dictionary) and then sees an empty issue list. -/
def generateSummary (ar : AnalysisResult) : Summary :=
  let s0 : Summary :=
    { url := ar.url, status := ar.status,
      analysis_time := round2 ar.analysis_time, issues_count := 0,
      warnings_count := 0, passed_checks := 0, failed_checks := 0 }
  let s1 :=
    match ar.results.meta with
    | none => s0
    | some cm =>
      let mi := metaIssuesOf cm
      if mi ≠ [] then
        { s0 with issues_count := s0.issues_count + mi.length,
                  failed_checks := s0.failed_checks + 1 }
      else
        { s0 with issues_count := s0.issues_count + mi.length,
                  passed_checks := s0.passed_checks + 1 }
  let s2 :=
    match ar.results.performance with
    | some (.ok p) =>
      if p.issues ≠ [] then
        { s1 with issues_count := s1.issues_count + p.issues.length,
                  failed_checks := s1.failed_checks + 1 }
      else
        { s1 with issues_count := s1.issues_count + p.issues.length,
                  passed_checks := s1.passed_checks + 1 }
    | _ => s1
  let s3 :=
    match ar.results.ssl with
    | some (.ok s) =>
      if s.issues ≠ [] then
        { s2 with issues_count := s2.issues_count + s.issues.length,
                  failed_checks := s2.failed_checks + 1 }
      else
        { s2 with issues_count := s2.issues_count + s.issues.length,
                  passed_checks := s2.passed_checks + 1 }
    | _ => s2
  s3

/-- The scores dictionary `_calculate_scores` returns, keys in insertion
order. -/
structure Scores where
  meta_tags : Nat
  performance : Nat
  links : Nat
  content : Nat
  mobile : Nat
  ssl : Nat
  overall : Nat
deriving Repr, DecidableEq

/-- The meta-tags score block of `_calculate_scores`: title and description
sub-dictionaries are always present in an ok result, so each contributes a
check; viewport adds a third check when truthy.  The `{error}` shape has
none of those keys, leaving `0 // max(0, 1)`. -/
def metaTagsScore : Option (CatResult MetaResult) → Nat
  | none => 0
  | some (.err _) => 0 / max 0 1
  | some (.ok m) =>
    let titlePart := if m.title.optimal then 100
      else if m.title.length > 0 then 50 else 0
    let descPart := if m.description.optimal then 100
      else if m.description.length > 0 then 50 else 0
    let viewportPart := if m.viewport then 100 else 0
    let checks := if m.viewport then 3 else 2
    (titlePart + descPart + viewportPart) / max checks 1

/-- The performance score block of `_calculate_scores`: an ok result always
carries `performance_score`, which is copied; the `{error}` shape lacks it
and falls back to the load-time ladder with `load_time` defaulting to 0,
hence 100. -/
def performanceScoreOf : Option (CatResult PerfResult) → Nat
  | none => 0
  | some (.ok p) => p.performance_score
  | some (.err _) => 100

/-- The ssl score block: `valid` defaults to false on the `{error}` shape. -/
def sslScoreOf : Option (CatResult SslResult) → Nat
  | none => 0
  | some (.ok s) => if s.valid then 100 else 0
  | some (.err _) => 0

/-- The mobile score block: `mobile_friendly` defaults to false on the
`{error}` shape, which therefore scores 50. -/
def mobileScoreOf : Option (CatResult MobileResult) → Nat
  | none => 0
  | some (.ok m) => if m.mobile_friendly then 100 else 50
  | some (.err _) => 50

/-- The weighted content sum of `_calculate_scores`, taking the values the
Python `.get(_, 0)` calls produce. -/
def contentScoreParts (wordCount h1Count imgWithoutAlt : Nat) : Nat :=
  let p1 := if wordCount ≥ 300 then 50 else 0
  let p2 := if h1Count = 1 then 30 else 0
  let p3 := if imgWithoutAlt = 0 then 20 else 0
  min (p1 + p2 + p3) 100

/-- The content score block: the `{error}` shape defaults every field to 0,
so it scores `min 20 100`. -/
def contentScoreOf : Option (CatResult ContentResult) → Nat
  | none => 0
  | some (.ok c) => contentScoreParts c.word_count c.h1_count c.img_without_alt
  | some (.err _) => contentScoreParts 0 0 0

/-- The per-category part of `_calculate_scores`: the scores dictionary
right before the overall score is computed (`links` is never assigned and
`overall` is still 0). -/
def categoryScores (ar : AnalysisResult) : Scores :=
  { meta_tags := metaTagsScore ar.results.meta,
    performance := performanceScoreOf ar.results.performance,
    links := 0,
    content := contentScoreOf ar.results.content,
    mobile := mobileScoreOf ar.results.mobile,
    ssl := sslScoreOf ar.results.ssl,
    overall := 0 }

/-- `scores.values()` in dictionary insertion order. -/
def scoresValues (s : Scores) : List Nat :=
  [s.meta_tags, s.performance, s.links, s.content, s.mobile, s.ssl, s.overall]

/-- Embedding of `ReportGenerator._calculate_scores`: after the category
blocks, the strictly positive values of the dictionary are averaged with
integer division into `overall` (left at 0 when no value is positive). -/
def calculateScores (ar : AnalysisResult) : Scores :=
  let s0 := categoryScores ar
  let validScores := (scoresValues s0).filter (fun x => x > 0)
  if validScores ≠ [] then
    { s0 with overall := validScores.sum / validScores.length }
  else s0

/-- A recommendation dictionary. -/
structure Recommendation where
  category : String
  priority : String
  title : String
  description : String
  solution : String
deriving Repr, DecidableEq

def titleRec (issues : List String) : Recommendation :=
  { category := "meta_tags", priority := "high",
    title := "Исправьте title страницы",
    description := String.intercalate "; " issues,
    solution := "Title должен содержать 30-60 символов и включать основные ключевые слова" }

def descriptionRec (issues : List String) : Recommendation :=
  { category := "meta_tags", priority := "high",
    title := "Исправьте meta description",
    description := String.intercalate "; " issues,
    solution := "Description должен содержать 120-160 символов и привлекать пользователей" }

def viewportRec : Recommendation :=
  { category := "mobile", priority := "high",
    title := "Добавьте viewport meta tag",
    description := "Отсутствует viewport meta tag для мобильной адаптивности",
    solution := "Добавьте <meta name=\"viewport\" content=\"width=device-width, initial-scale=1\">" }

def performanceRec : Recommendation :=
  { category := "performance", priority := "high",
    title := "Улучшите скорость загрузки",
    description := ".1f",
    solution := "Оптимизируйте изображения, используйте кэширование, минимизируйте CSS/JS" }

def sslRec : Recommendation :=
  { category := "security", priority := "critical",
    title := "Настройте SSL сертификат",
    description := "SSL сертификат недействителен или отсутствует",
    solution := "Получите бесплатный SSL сертификат от Let's Encrypt" }

def h1Rec (h1Count : Nat) : Recommendation :=
  { category := "content", priority := "medium",
    title := "Исправьте структуру заголовков",
    description := "Найдено " ++ toString h1Count ++ " H1 заголовков",
    solution := "На странице должен быть ровно один H1 заголовок" }

def wordCountRec (wordCount : Nat) : Recommendation :=
  { category := "content", priority := "medium",
    title := "Добавьте больше контента",
    description := "Найдено всего " ++ toString wordCount ++ " слов",
    solution := "Добавьте качественный контент объемом не менее 300 слов" }

/-- The content recommendations, taking the values the Python
`content.get(_, 0)` calls produce. -/
def contentRecs (h1Count wordCount : Nat) : List Recommendation :=
  (if h1Count ≠ 1 then [h1Rec h1Count] else [])
    ++ (if wordCount < 300 then [wordCountRec wordCount] else [])

/-- Embedding of `ReportGenerator._generate_recommendations`.  For the meta
`{error}` shape the title/description keys are absent but
`meta.get('viewport', False)` is falsy, so the viewport recommendation is
still emitted; for the performance `{error}` shape `load_time` defaults to
0; for the ssl `{error}` shape `valid` defaults to false; for the content
`{error}` shape both counters default to 0. -/
def generateRecommendations (ar : AnalysisResult) : List Recommendation :=
  let r := ar.results
  let metaRecs :=
    match r.meta with
    | none => []
    | some (.ok m) =>
      (if m.title.issues ≠ [] then [titleRec m.title.issues] else [])
        ++ (if m.description.issues ≠ [] then [descriptionRec m.description.issues] else [])
        ++ (if !m.viewport then [viewportRec] else [])
    | some (.err _) => [viewportRec]
  let perfRecs :=
    match r.performance with
    | some (.ok p) => if p.load_time > 5 then [performanceRec] else []
    | _ => []
  let sslRecs :=
    match r.ssl with
    | none => []
    | some (.ok s) => if !s.valid then [sslRec] else []
    | some (.err _) => [sslRec]
  let contRecs :=
    match r.content with
    | none => []
    | some (.ok c) => contentRecs c.h1_count c.word_count
    | some (.err _) => contentRecs 0 0
  metaRecs ++ perfRecs ++ sslRecs ++ contRecs

/-- The report dictionary `generate_report` returns on the normal path. -/
structure Report where
  summary : Summary
  scores : Scores
  recommendations : List Recommendation
  details : AnalysisResult
  generated_at : String
deriving Repr, DecidableEq

/-- Embedding of `ReportGenerator.generate_report`: a pure function of the
analysis result except for the `generated_at` timestamp, which is the wall
clock at the moment of the call and is passed in here. -/
def generateReport (now : String) (ar : AnalysisResult) : Report :=
  { summary := generateSummary ar, scores := calculateScores ar,
    recommendations := generateRecommendations ar, details := ar,
    generated_at := now }

/-! ## Concrete inputs used by counterexamples and witnesses -/

/-- A page with no title tag, no description meta and no keywords meta. -/
def noTagsPage : MetaPage :=
  { titleTag := none, descContent := none, keywordsContent := none,
    hasViewport := false, hasRobots := false }

/-- A page with the 4-character title `Home` and a short description. -/
def homeTitlePage : MetaPage :=
  { titleTag := some "Home", descContent := some "abc",
    keywordsContent := none, hasViewport := false, hasRobots := false }

/-- A small page with exactly one `h1`. -/
def oneH1Page : ContentPage :=
  { textContent := "hello world", h1Count := 1, h2Count := 0, h3Count := 0,
    imgAlts := [] }

/-- An environment whose initial fetch fails. -/
def deadEnv : SiteEnv :=
  { fetch := none, metaRes := .err "e", linksRes := .err "e",
    contentRes := .err "e", perfRes := .err "e", mobileRes := .err "e",
    sslRes := .err "e", timestamp := "2024-01-01T00:00:00", elapsedTotal := 1 }

/-! ## Claim theorems -/

/-- C2 (amended): when the Tag Analyzer finds a title tag with text `raw`,
let ℓ be the length of the stripped text; then ℓ < 30 records exactly the
too-short issue with `optimal = false`, 30 ≤ ℓ ≤ 60 gives `optimal = true`
with no title issue, and ℓ > 60 records exactly the too-long issue with
`optimal = false`.  (Without a title tag the title result keeps its
defaults: length 0, no issues, `optimal = false`.) -/
theorem title_length_law (page : MetaPage) (raw : String)
    (h : page.titleTag = some raw) :
    (analyzeMetaTags page).title.length = (pyStrip raw).length ∧
    ((pyStrip raw).length < 30 →
      (analyzeMetaTags page).title.issues = [titleTooShortMsg] ∧
      (analyzeMetaTags page).title.optimal = false) ∧
    (30 ≤ (pyStrip raw).length → (pyStrip raw).length ≤ 60 →
      (analyzeMetaTags page).title.optimal = true ∧
      (analyzeMetaTags page).title.issues = []) ∧
    (60 < (pyStrip raw).length →
      (analyzeMetaTags page).title.issues = [titleTooLongMsg] ∧
      (analyzeMetaTags page).title.optimal = false) := by
  have ht : (analyzeMetaTags page).title = analyzeTitle (some raw) := by
    simp only [analyzeMetaTags, h]
  rw [ht]
  simp only [analyzeTitle]
  split_ifs with h1 h2
  · exact ⟨rfl, fun _ => ⟨rfl, rfl⟩, fun h30 _ => absurd h30 (by omega),
      fun h60 => absurd h60 (by omega)⟩
  · exact ⟨rfl, fun hlt => absurd hlt h1, fun _ h60 => absurd h60 (by omega),
      fun _ => ⟨rfl, rfl⟩⟩
  · exact ⟨rfl, fun hlt => absurd hlt h1, fun _ _ => ⟨rfl, rfl⟩,
      fun h60 => absurd h60 (by omega)⟩

/-- C2 (witness): the 4-character title `Home` is flagged too short. -/
theorem title_length_law_witness :
    (analyzeMetaTags homeTitlePage).title.issues = [titleTooShortMsg] ∧
    (analyzeMetaTags homeTitlePage).title.optimal = false :=
  (title_length_law homeTitlePage "Home" rfl).2.1 (by decide)

/-- C2 (counterexample): on a page without a title tag the title result has
length 0 < 30 yet records no issue at all, so the claim's "ℓ < 30 implies a
too-short issue is recorded" fails as stated for every HTML input. -/
theorem title_law_fails_on_missing_title :
    (analyzeMetaTags noTagsPage).title.length < 30 ∧
    (analyzeMetaTags noTagsPage).title.issues = [] ∧
    (analyzeMetaTags noTagsPage).title.optimal = false :=
  ⟨by decide, rfl, rfl⟩

/-- C3 (amended): when the description meta tag is present with a non-empty
`content` attribute `raw`, let ℓ be the length of the stripped text; then
ℓ < 120 records exactly the too-short issue with `optimal = false`,
120 ≤ ℓ ≤ 160 gives `optimal = true` with no description issue, and
ℓ > 160 records exactly the too-long issue with `optimal = false`.  (An
absent or empty description leaves the defaults: length 0, no issues,
`optimal = false` — no issue is recorded, contrary to the claim.) -/
theorem description_length_law (page : MetaPage) (raw : String)
    (h : page.descContent = some raw) (hraw : raw ≠ "") :
    (analyzeMetaTags page).description.length = (pyStrip raw).length ∧
    ((pyStrip raw).length < 120 →
      (analyzeMetaTags page).description.issues = [descTooShortMsg] ∧
      (analyzeMetaTags page).description.optimal = false) ∧
    (120 ≤ (pyStrip raw).length → (pyStrip raw).length ≤ 160 →
      (analyzeMetaTags page).description.optimal = true ∧
      (analyzeMetaTags page).description.issues = []) ∧
    (160 < (pyStrip raw).length →
      (analyzeMetaTags page).description.issues = [descTooLongMsg] ∧
      (analyzeMetaTags page).description.optimal = false) := by
  have hd : (analyzeMetaTags page).description = analyzeDescription (some raw) := by
    simp only [analyzeMetaTags, h]
  rw [hd]
  simp only [analyzeDescription]
  split_ifs with h0 h1 h2
  · exact absurd h0 hraw
  · exact ⟨rfl, fun _ => ⟨rfl, rfl⟩, fun h120 _ => absurd h120 (by omega),
      fun h160 => absurd h160 (by omega)⟩
  · exact ⟨rfl, fun hlt => absurd hlt h1, fun _ h160 => absurd h160 (by omega),
      fun _ => ⟨rfl, rfl⟩⟩
  · exact ⟨rfl, fun hlt => absurd hlt h1, fun _ _ => ⟨rfl, rfl⟩,
      fun h160 => absurd h160 h2⟩

/-- C3 (witness): a 3-character description is flagged too short. -/
theorem description_length_law_witness :
    (analyzeMetaTags homeTitlePage).description.issues = [descTooShortMsg] ∧
    (analyzeMetaTags homeTitlePage).description.optimal = false :=
  (description_length_law homeTitlePage "abc" rfl (by decide)).2.1 (by decide)

/-- C3 (counterexample): on a page with no description meta tag the
description result has length 0 < 120 yet records no issue, refuting the
claim's "an absent or empty description (ℓ = 0) yields a too-short issue". -/
theorem description_law_fails_on_missing_description :
    (analyzeMetaTags noTagsPage).description.length = 0 ∧
    (analyzeMetaTags noTagsPage).description.issues = [] ∧
    (analyzeMetaTags noTagsPage).description.optimal = false :=
  ⟨rfl, rfl, rfl⟩

/-- C4: the Content Analyzer records exactly one heading-count issue when
the page has zero or at least two `h1` elements, and none when it has
exactly one. -/
theorem heading_issue_count (p : ContentPage) :
    (p.h1Count = 1 →
      ((analyzeContent p).issues.filter isHeadingIssue).length = 0) ∧
    (p.h1Count ≠ 1 →
      ((analyzeContent p).issues.filter isHeadingIssue).length = 1) := by
  have hword : ∀ wc : Nat,
      (List.filter isHeadingIssue (if wc < 300 then [lowWordCountMsg] else [])).length = 0 := by
    intro wc
    split_ifs
    · decide
    · decide
  simp only [analyzeContent, List.filter_append, List.length_append]
  constructor <;> intro h
  · rw [if_neg (by omega), if_neg (by omega)]
    simpa using hword (pyWords p.textContent).length
  · by_cases h0 : p.h1Count = 0
    · rw [if_pos h0]
      have : (List.filter isHeadingIssue [missingH1Msg]).length = 1 := by decide
      rw [this, hword]
    · rw [if_neg h0, if_pos (by omega)]
      have : (List.filter isHeadingIssue [multipleH1Msg]).length = 1 := by decide
      rw [this, hword]

/-- C4 (witness): a page with exactly one `h1` gets no heading issue. -/
theorem heading_issue_count_witness :
    ((analyzeContent oneH1Page).issues.filter isHeadingIssue).length = 0 :=
  (heading_issue_count oneH1Page).1 rfl

/-- C5: the performance score is 100 for load times under 2 seconds, 75
under 5, 50 under 10 and 25 otherwise, and a performance issue is recorded
exactly when the load time is at least 10 seconds or the status code is not
200. -/
theorem performance_score_law (t : ℚ) (size code : Nat) :
    (t < 2 → (analyzePerformance t size code).performance_score = 100) ∧
    (2 ≤ t → t < 5 → (analyzePerformance t size code).performance_score = 75) ∧
    (5 ≤ t → t < 10 → (analyzePerformance t size code).performance_score = 50) ∧
    (10 ≤ t → (analyzePerformance t size code).performance_score = 25) ∧
    ((analyzePerformance t size code).issues ≠ [] ↔ (10 ≤ t ∨ code ≠ 200)) := by
  simp only [analyzePerformance]
  refine ⟨?_, ?_, ?_, ?_, ?_⟩
  · intro h; rw [if_pos h]
  · intro h2 h5; rw [if_neg (by linarith), if_pos h5]
  · intro h5 h10; rw [if_neg (by linarith), if_neg (by linarith), if_pos h10]
  · intro h10
    rw [if_neg (by linarith), if_neg (by linarith), if_neg (by linarith)]
  · split_ifs with h1 h2 h3 hc <;> simp_all <;> linarith

/-- C5 (witness): a 3-second load with status 200 scores 75. -/
theorem performance_score_law_witness :
    (analyzePerformance 3 1000 200).performance_score = 75 :=
  (performance_score_law 3 1000 200).2.1 (by norm_num) (by norm_num)

/-- C6: when the initial fetch fails, `analyze_site` returns status
`error` with an empty results map (no analyzer ran) and exactly one error
message, and the function returns normally. -/
theorem analyze_site_error_on_fetch_failure (env : SiteEnv) (url : String)
    (h : env.fetch = none) :
    (analyzeSite env url).status = "error" ∧
    (analyzeSite env url).results = emptyResults ∧
    (analyzeSite env url).errors = [siteUnavailableMsg] ∧
    (analyzeSite env url).errors.length = 1 := by
  unfold analyzeSite
  rw [h]
  exact ⟨rfl, rfl, rfl, rfl⟩

/-- C6 (witness): a concrete unreachable site. -/
theorem analyze_site_error_witness :
    (analyzeSite deadEnv "https://example.com").status = "error" ∧
    (analyzeSite deadEnv "https://example.com").results = emptyResults ∧
    (analyzeSite deadEnv "https://example.com").errors = [siteUnavailableMsg] ∧
    (analyzeSite deadEnv "https://example.com").errors.length = 1 :=
  analyze_site_error_on_fetch_failure deadEnv "https://example.com" rfl

/-! ## Report generator lemmas -/

/-- The six per-category entries of the scores map, in insertion order,
`overall` excluded. -/
def categoryValues (s : Scores) : List Nat :=
  [s.meta_tags, s.performance, s.links, s.content, s.mobile, s.ssl]

lemma calcScores_fields (ar : AnalysisResult) :
    categoryValues (calculateScores ar) = categoryValues (categoryScores ar) := by
  simp only [calculateScores, categoryValues]
  split_ifs <;> rfl

lemma filter_scoresValues (s : Scores) (h : s.overall = 0) :
    (scoresValues s).filter (fun x => x > 0) =
      (categoryValues s).filter (fun x => x > 0) := by
  have hs : scoresValues s = categoryValues s ++ [s.overall] := rfl
  have h0 : List.filter (fun x => x > 0) [0] = ([] : List Nat) := by decide
  rw [hs, h, List.filter_append, h0, List.append_nil]

lemma calcScores_overall (ar : AnalysisResult) :
    (calculateScores ar).overall =
      (if ((categoryValues (categoryScores ar)).filter (fun x => x > 0)) = [] then 0
       else ((categoryValues (categoryScores ar)).filter (fun x => x > 0)).sum /
            ((categoryValues (categoryScores ar)).filter (fun x => x > 0)).length) := by
  simp only [calculateScores]
  rw [filter_scoresValues (categoryScores ar) rfl]
  rw [apply_ite Scores.overall]
  split_ifs with h1 h2
  · rfl
  · rfl
  · exact absurd (not_not.mp h1) h2

/-- C1: the `overall` score equals the integer-truncated mean of the
strictly positive category scores of the returned scores map, and 0 when no
category score is strictly positive. -/
theorem overall_score_law (ar : AnalysisResult) :
    (calculateScores ar).overall =
      (if ((categoryValues (calculateScores ar)).filter (fun x => x > 0)) = [] then 0
       else ((categoryValues (calculateScores ar)).filter (fun x => x > 0)).sum /
            ((categoryValues (calculateScores ar)).filter (fun x => x > 0)).length) := by
  rw [calcScores_fields]
  exact calcScores_overall ar

/-- C8: the report computed from an analysis result is a pure function of
that result: two generator runs over the same result (at different wall
clock instants) return identical scores maps and identical recommendation
lists. -/
theorem report_generation_deterministic (t1 t2 : String) (ar : AnalysisResult) :
    (generateReport t1 ar).scores = (generateReport t2 ar).scores ∧
    (generateReport t1 ar).recommendations = (generateReport t2 ar).recommendations :=
  ⟨rfl, rfl⟩

/-- C10: the `links` score is 0 for every analysis result — no rule ever
assigns it — and hence, being non-positive, it is dropped from the
positive-score filter that feeds the overall mean. -/
theorem links_score_always_zero (ar : AnalysisResult) :
    (calculateScores ar).links = 0 ∧
    (categoryValues (calculateScores ar)).filter (fun x => x > 0) =
      [(calculateScores ar).meta_tags, (calculateScores ar).performance,
       (calculateScores ar).content, (calculateScores ar).mobile,
       (calculateScores ar).ssl].filter (fun x => x > 0) := by
  have hl : (calculateScores ar).links = 0 := by
    simp only [calculateScores]
    split_ifs <;> rfl
  refine ⟨hl, ?_⟩
  have hdecomp : categoryValues (calculateScores ar) =
      [(calculateScores ar).meta_tags, (calculateScores ar).performance] ++
        ([(calculateScores ar).links] ++
          [(calculateScores ar).content, (calculateScores ar).mobile,
           (calculateScores ar).ssl]) := rfl
  have h0 : List.filter (fun x => x > 0) [0] = ([] : List Nat) := by decide
  rw [hdecomp, hl, List.filter_append, List.filter_append, h0,
    List.nil_append]
  have hsplit : [(calculateScores ar).meta_tags, (calculateScores ar).performance,
      (calculateScores ar).content, (calculateScores ar).mobile,
      (calculateScores ar).ssl] =
      [(calculateScores ar).meta_tags, (calculateScores ar).performance] ++
        [(calculateScores ar).content, (calculateScores ar).mobile,
         (calculateScores ar).ssl] := rfl
  rw [hsplit, List.filter_append]

/-! ## Score bounds -/

lemma metaTagsScore_le_100 (o : Option (CatResult MetaResult)) :
    metaTagsScore o ≤ 100 := by
  rcases o with _ | (m | e)
  · decide
  · simp only [metaTagsScore]
    split_ifs <;> decide
  · simp only [metaTagsScore]
    decide

lemma contentScoreParts_le_100 (a b c : Nat) : contentScoreParts a b c ≤ 100 :=
  Nat.min_le_right _ _

lemma contentScoreOf_le_100 (o : Option (CatResult ContentResult)) :
    contentScoreOf o ≤ 100 := by
  rcases o with _ | (c | e)
  · decide
  · exact contentScoreParts_le_100 _ _ _
  · exact contentScoreParts_le_100 _ _ _

lemma mobileScoreOf_le_100 (o : Option (CatResult MobileResult)) :
    mobileScoreOf o ≤ 100 := by
  rcases o with _ | (m | e)
  · decide
  · simp only [mobileScoreOf]
    split_ifs <;> decide
  · simp only [mobileScoreOf]
    decide

lemma sslScoreOf_le_100 (o : Option (CatResult SslResult)) :
    sslScoreOf o ≤ 100 := by
  rcases o with _ | (s | e)
  · decide
  · simp only [sslScoreOf]
    split_ifs <;> decide
  · simp only [sslScoreOf]
    decide

/-- The score `_analyze_performance` itself stores is one of the four
tiers, justifying the range hypothesis of the scores-bound theorem. -/
lemma analyzePerformance_score_le_100 (t : ℚ) (size code : Nat) :
    (analyzePerformance t size code).performance_score ≤ 100 := by
  simp only [analyzePerformance]
  split_ifs <;> decide

lemma list_mean_le_100 (l : List Nat) (h : ∀ x ∈ l, x ≤ 100) :
    l.sum / l.length ≤ 100 := by
  rcases l with _ | ⟨a, t⟩
  · decide
  · have hlen : 0 < (a :: t).length := by simp
    have hsum : (a :: t).sum ≤ (a :: t).length * 100 := by
      calc (a :: t).sum ≤ (a :: t).length • 100 := List.sum_le_card_nsmul _ _ h
        _ = (a :: t).length * 100 := by simp [smul_eq_mul]
    calc (a :: t).sum / (a :: t).length
        ≤ ((a :: t).length * 100) / (a :: t).length := Nat.div_le_div_right hsum
      _ = 100 := Nat.mul_div_cancel_left 100 hlen

lemma categoryScores_all_le_100 (ar : AnalysisResult)
    (hp : ∀ p : PerfResult, ar.results.performance = some (CatResult.ok p) →
      p.performance_score ≤ 100) :
    ∀ x ∈ categoryValues (categoryScores ar), x ≤ 100 := by
  have hperf : performanceScoreOf ar.results.performance ≤ 100 := by
    rcases hpe : ar.results.performance with _ | (p | e)
    · decide
    · simpa [performanceScoreOf] using hp p hpe
    · simp only [performanceScoreOf]
      decide
  intro x hx
  simp only [categoryValues, categoryScores, List.mem_cons,
    List.not_mem_nil, or_false] at hx
  rcases hx with rfl | rfl | rfl | rfl | rfl | rfl
  · exact metaTagsScore_le_100 _
  · exact hperf
  · decide
  · exact contentScoreOf_le_100 _
  · exact mobileScoreOf_le_100 _
  · exact sslScoreOf_le_100 _

/-- C7: every value of the returned scores map — the six category scores
and the overall score — is at most 100 (all scores are naturals, so they
lie in [0, 100]).  The range hypothesis on a stored performance result is
what `_analyze_performance` always guarantees
(`analyzePerformance_score_le_100`). -/
theorem scores_within_range (ar : AnalysisResult)
    (hp : ∀ p : PerfResult, ar.results.performance = some (CatResult.ok p) →
      p.performance_score ≤ 100) :
    ∀ x ∈ scoresValues (calculateScores ar), x ≤ 100 := by
  have hcat := categoryScores_all_le_100 ar hp
  intro x hx
  have hvals : scoresValues (calculateScores ar) =
      categoryValues (calculateScores ar) ++ [(calculateScores ar).overall] := rfl
  rw [hvals, calcScores_fields] at hx
  rcases List.mem_append.mp hx with h | h
  · exact hcat x h
  · have hx0 : x = (calculateScores ar).overall := by simpa using h
    subst hx0
    rw [calcScores_overall]
    split_ifs with hpos
    · decide
    · refine list_mean_le_100 _ ?_
      intro y hy
      exact hcat y (List.mem_filter.mp hy).1

/-- A performance result as `_analyze_performance` produces for a fast
healthy response. -/
def perfOkRes : PerfResult := analyzePerformance 1 1000 200

/-- A complete analysis result with every category present and ok. -/
def fullAr : AnalysisResult :=
  { url := "https://example.com", timestamp := "2024-01-01T00:00:00",
    analysis_time := 2, status := "completed", errors := [],
    results :=
      { availability := some
          { status_code := 200, response_time := 1,
            final_url := "https://example.com" },
        meta := some (.ok (analyzeMetaTags homeTitlePage)),
        links := some (.ok
          { internal_links := 3, external_links := 2, broken_links := 0,
            links_without_alt := 0, total_links := 5 }),
        content := some (.ok (analyzeContent oneH1Page)),
        performance := some (.ok perfOkRes),
        mobile := some (.ok
          { viewport_meta := true, mobile_friendly := true, issues := [] }),
        ssl := some (.ok
          { valid := true, issuer := [], subject := [],
            expires := some "2025-01-01", issues := [] }) } }

/-- C7 (witness): on a complete concrete analysis result the overall score
(the last entry of the scores map) is within range. -/
theorem scores_within_range_witness :
    (calculateScores fullAr).overall ≤ 100 := by
  refine scores_within_range fullAr ?_ (calculateScores fullAr).overall ?_
  · intro p hp
    have he : fullAr.results.performance = some (CatResult.ok perfOkRes) := rfl
    rw [he] at hp
    injection hp with h1
    injection h1 with h2
    subst h2
    decide
  · have : scoresValues (calculateScores fullAr) =
        categoryValues (calculateScores fullAr) ++
          [(calculateScores fullAr).overall] := rfl
    rw [this]
    exact List.mem_append_right _ (List.mem_singleton.mpr rfl)

/-! ## Summary counting -/

/-- Written from the claim's words: the total number of issues across every
category present in the results map (availability and links carry no issue
lists; a category stored as `{error}` carries none either). -/
def claimTotalIssues (r : Results) : Nat :=
  (match r.meta with
   | some cm => (metaIssuesOf cm).length
   | none => 0) +
  (match r.links with
   | _ => 0) +
  (match r.content with
   | some (.ok c) => c.issues.length
   | _ => 0) +
  (match r.performance with
   | some (.ok p) => p.issues.length
   | _ => 0) +
  (match r.mobile with
   | some (.ok m) => m.issues.length
   | _ => 0) +
  (match r.ssl with
   | some (.ok s) => s.issues.length
   | _ => 0)

/-- The issues the summary actually counts: meta (whenever the category is
present), performance and ssl (only when their dictionary carries an
`issues` key, i.e. is not the `{error}` shape). -/
def countedIssues (r : Results) : Nat :=
  (match r.meta with
   | some cm => (metaIssuesOf cm).length
   | none => 0) +
  (match r.performance with
   | some (.ok p) => p.issues.length
   | _ => 0) +
  (match r.ssl with
   | some (.ok s) => s.issues.length
   | _ => 0)

/-- The failed-check count over the three inspected categories. -/
def countedFailed (r : Results) : Nat :=
  (match r.meta with
   | some cm => if metaIssuesOf cm ≠ [] then 1 else 0
   | none => 0) +
  (match r.performance with
   | some (.ok p) => if p.issues ≠ [] then 1 else 0
   | _ => 0) +
  (match r.ssl with
   | some (.ok s) => if s.issues ≠ [] then 1 else 0
   | _ => 0)

/-- The passed-check count over the three inspected categories. -/
def countedPassed (r : Results) : Nat :=
  (match r.meta with
   | some cm => if metaIssuesOf cm = [] then 1 else 0
   | none => 0) +
  (match r.performance with
   | some (.ok p) => if p.issues = [] then 1 else 0
   | _ => 0) +
  (match r.ssl with
   | some (.ok s) => if s.issues = [] then 1 else 0
   | _ => 0)

/-- An analysis result whose only present category is a content result with
two issues (no h1, not enough words). -/
def contentOnlyAr : AnalysisResult :=
  { url := "https://example.com", timestamp := "2024-01-01T00:00:00",
    analysis_time := 0, status := "completed", errors := [],
    results := { emptyResults with
      content := some (.ok (analyzeContent
        { textContent := "", h1Count := 0, h2Count := 0, h3Count := 0,
          imgAlts := [] })) } }

/-- C9 (counterexample): a results map whose only present category is a
content category with two issues, yet the summary reports zero issues and
zero failed checks — `issues_count` does not equal the total across every
present category. -/
theorem summary_ignores_content_issues :
    claimTotalIssues contentOnlyAr.results = 2 ∧
    (generateSummary contentOnlyAr).issues_count = 0 ∧
    (generateSummary contentOnlyAr).failed_checks = 0 :=
  ⟨rfl, rfl, rfl⟩

/-- C9 (amended): the summary's `issues_count` equals the total number of
issues across only the meta, performance and ssl categories (meta whenever
present, performance and ssl only when stored with an `issues` key), and
`failed_checks`/`passed_checks` are incremented exactly for those
categories, according to whether their issue list is non-empty.  Issues of
the content and mobile categories are not counted. -/
theorem summary_counts_meta_perf_ssl (ar : AnalysisResult) :
    (generateSummary ar).issues_count = countedIssues ar.results ∧
    (generateSummary ar).failed_checks = countedFailed ar.results ∧
    (generateSummary ar).passed_checks = countedPassed ar.results := by
  rcases hm : ar.results.meta with _ | cm <;>
    rcases hp : ar.results.performance with _ | (p | pe) <;>
      rcases hs : ar.results.ssl with _ | (s | se) <;>
        simp only [generateSummary, countedIssues, countedFailed,
          countedPassed, hm, hp, hs] <;>
        (try split_ifs) <;> simp_all

end SeoAudit
